import Mathlib

/-!
# rstrtr — shallow embedding and verification

Embedding of `src/main.rs` of the `rstrtr` process supervisor.

The program `run` (main.rs lines 75–132):
* writes `"\n"` to the control path (line 76),
* sets up a debounced watcher on it (lines 78–80),
* then loops: spawn the command (lines 84–93; on spawn error print a
  diagnostic and `break`), and inside, poll the watch channel with a 50 ms
  timeout (line 97), classify the event (lines 98–106: `Write` sets
  `restart`, `Remove` clears `keep_going`, everything else is discarded,
  a recv error/timeout is ignored), kill the child if `restart || !keep_going`
  (lines 108–110, result discarded), break on `!keep_going` (lines 111–113),
  then `try_wait` (lines 114–123: `Ok(Some(exit))` prints `Exit` and breaks,
  `Ok(None)` does nothing, `Err` prints a diagnostic and the loop continues);
  after the inner loop, `Restarting...` is printed iff `keep_going`
  (lines 125–127); finally `Quitting...` is printed (line 129) and `Ok(())`
  is returned.

The environment (watch-channel messages, spawn outcomes, `try_wait`
outcomes, `kill` outcomes) is supplied as finite input traces; the
interpreter consumes them exactly in the order the Rust control flow would,
and records the program's observable actions (filesystem operations,
spawns, kills, printed lines) as an event list.
-/

/-- The variants of `notify::DebouncedEvent` (notify 4.x), paths dropped
since the watcher is attached non-recursively to the single control path.
`Error` is a watcher error delivered in-band through the channel. -/
inductive DebouncedEvent
  | NoticeWrite
  | NoticeRemove
  | Create
  | Write
  | Chmod
  | Remove
  | Rename
  | Rescan
  | Error
  deriving DecidableEq, Repr

/-- Result of `proc.try_wait()` at line 114: `Ok(Some(exit))`,
`Ok(None)`, or `Err(e)`. Exit statuses are modelled as integers. -/
inductive TryWaitResult
  | exited (code : Int)
  | running
  | err
  deriving DecidableEq, Repr

/-- Environment inputs for one iteration of the inner poll loop:
`recv` is what `rx.recv_timeout(50ms)` yields (`none` models the `Err`
case — timeout or disconnection — which line 97 silently skips);
`killOk` is the result of `proc.kill()`, discarded by `let _ =` at
line 109; `tryWait` is what `proc.try_wait()` would return, consulted
only if the iteration reaches line 114. -/
structure PollInput where
  recv : Option DebouncedEvent
  killOk : Bool
  tryWait : TryWaitResult
  deriving DecidableEq, Repr

/-- Outcome of `Command::new(..).spawn()` at line 85. -/
inductive SpawnResult
  | ok
  | err
  deriving DecidableEq, Repr

/-- Observable actions of the program: filesystem operations on the
control path, process operations, and printed lines. -/
inductive Event
  | fsWrite
  | fsRemove
  | spawn
  | kill
  | outSpawnError
  | outExit (code : Int)
  | outTryWaitErr
  | outRestarting
  | outQuitting
  deriving DecidableEq, Repr

/-- The event classification of lines 98–106: given the current
`keep_going` and the received message, return the `(restart, keep_going)`
pair after the `match`. `Write(_)` sets `restart`; `Remove(_)` clears
`keep_going`; every other variant falls into `_ => {}`; a recv
error/timeout (`none`) leaves both untouched. -/
def classify (keepGoing : Bool) : Option DebouncedEvent → Bool × Bool
  | some DebouncedEvent.Write => (true, keepGoing)
  | some DebouncedEvent.Remove => (false, false)
  | some _ => (false, keepGoing)
  | none => (false, keepGoing)

/-- The inner `loop` of lines 95–124, driven by a finite trace of poll
inputs. Returns `(events, keep_going, remaining inputs, broke)` where
`broke` says whether the loop exited by `break` (`false` means the input
trace ran out while the loop was still going). -/
def innerLoop : Bool → List PollInput → List Event × Bool × List PollInput × Bool
  | kg, [] => ([], kg, [], false)
  | kg, i :: rest =>
    let rc := classify kg i.recv
    let restart := rc.1
    let kg1 := rc.2
    let killEvents := if restart || !kg1 then [Event.kill] else []
    if kg1 = false then
      (killEvents, kg1, rest, true)
    else
      match i.tryWait with
      | TryWaitResult.exited c => (killEvents ++ [Event.outExit c], kg1, rest, true)
      | TryWaitResult.running =>
        let r := innerLoop kg1 rest
        (killEvents ++ r.1, r.2)
      | TryWaitResult.err =>
        let r := innerLoop kg1 rest
        (killEvents ++ Event.outTryWaitErr :: r.1, r.2)

/-- How a completed run of the `while` loop ended: `quit` (the loop
condition `keep_going` became false), `spawnFail` (the `break` at line 89),
or `outOfTrace` (the supplied environment trace ran out while the program
was still running — the run is unfinished). -/
inductive RunEnd
  | quit
  | spawnFail
  | outOfTrace
  deriving DecidableEq, Repr

/-- The outer `while keep_going` loop of lines 83–128, driven by a trace
of spawn outcomes (one per iteration) and the shared trace of poll
inputs. Returns `(events, how the loop ended, unconsumed poll inputs)`. -/
def outerLoop : Bool → List SpawnResult → List PollInput → List Event × RunEnd × List PollInput
  | false, _, polls => ([], RunEnd.quit, polls)
  | true, [], polls => ([], RunEnd.outOfTrace, polls)
  | true, s :: srest, polls =>
    match s with
    | SpawnResult.err => ([Event.outSpawnError], RunEnd.spawnFail, polls)
    | SpawnResult.ok =>
      let r := innerLoop true polls
      let ies := r.1
      let kg1 := r.2.1
      let polls1 := r.2.2.1
      let broke := r.2.2.2
      if broke then
        let restartEv := if kg1 then [Event.outRestarting] else []
        let rec1 := outerLoop kg1 srest polls1
        (Event.spawn :: (ies ++ restartEv ++ rec1.1), rec1.2.1, rec1.2.2)
      else
        (Event.spawn :: ies, RunEnd.outOfTrace, polls1)

/-- Result of the whole `run` function: `fatal` models an `Err` returned
through `?` before the loop (propagated by `main`, non-zero process exit);
`done` models reaching line 131 `Ok(())` (process exit 0); `incomplete`
means the environment trace ran out mid-run. -/
inductive RunResult
  | fatal (events : List Event)
  | done (events : List Event) (e : RunEnd)
  | incomplete (events : List Event)
  deriving DecidableEq, Repr

/-- The events a run produced. -/
def RunResult.events : RunResult → List Event
  | RunResult.fatal es => es
  | RunResult.done es _ => es
  | RunResult.incomplete es => es

/-- `fn run` (lines 75–132): `initOk` is whether the initial
`std::fs::write(&flags.rstrtr, "\n")?` succeeds, `watcherOk` whether
`watcher(tx, 100ms)?` succeeds, `watchOk` whether
`watcher.watch(.., NonRecursive)?` succeeds; each failure propagates via
`?`. On success the write to the control path is recorded, then the
outer loop runs, then `Quitting...` is printed and `Ok(())` returned. -/
def run (initOk watcherOk watchOk : Bool) (spawns : List SpawnResult)
    (polls : List PollInput) : RunResult :=
  if initOk = false then RunResult.fatal []
  else if watcherOk = false then RunResult.fatal [Event.fsWrite]
  else if watchOk = false then RunResult.fatal [Event.fsWrite]
  else
    let r := outerLoop true spawns polls
    match r.2.1 with
    | RunEnd.outOfTrace => RunResult.incomplete (Event.fsWrite :: r.1)
    | e => RunResult.done (Event.fsWrite :: (r.1 ++ [Event.outQuitting])) e

/-- Process exit code seen by the shell: `anyhow::Result` `Err` from
`main` exits non-zero, `Ok(())` exits 0. (`incomplete` runs have not
exited; the value is unused for them.) -/
def exitCode : RunResult → Nat
  | RunResult.fatal _ => 1
  | RunResult.done _ _ => 0
  | RunResult.incomplete _ => 0

/-!
## The `Restart` and `Quit` subcommand arms of `main` (lines 54–67)

`Restart` runs `std::fs::write(&flags.rstrtr, "\n")?` and nothing else;
`Quit` runs `std::fs::remove_file(&flags.rstrtr)?` and nothing else; in
both arms the error propagates through `?` to `main`'s
`anyhow::Result`, which the OS turns into a non-zero process exit.
The filesystem is modelled by the two facts the two syscalls depend on:
whether the control path's parent directory exists (writable), and
whether the control path itself exists.
-/

/-- Filesystem state relevant to the control path. -/
structure FsState where
  parentOk : Bool
  ctrlExists : Bool
  deriving DecidableEq, Repr

/-- `std::fs::write(&flags.rstrtr, "\n")`: creates or truncates the
control file; fails iff the parent directory is missing/unwritable. -/
def fsWriteCtrl (fs : FsState) : Except Unit FsState :=
  if fs.parentOk then Except.ok { fs with ctrlExists := true } else Except.error ()

/-- `std::fs::remove_file(&flags.rstrtr)`: deletes the control file;
fails iff the path does not exist. -/
def fsRemoveCtrl (fs : FsState) : Except Unit FsState :=
  if fs.ctrlExists then Except.ok { fs with ctrlExists := false } else Except.error ()

/-- The `Subcommand::Restart` arm (lines 58–60): the write, then the arm
ends (nothing else runs before `Ok(())`). Returns the actions performed
and the propagated result. -/
def restartCmd (fs : FsState) : List Event × Except Unit FsState :=
  match fsWriteCtrl fs with
  | Except.ok fs1 => ([Event.fsWrite], Except.ok fs1)
  | Except.error e => ([], Except.error e)

/-- The `Subcommand::Quit` arm (lines 61–63): the delete, then the arm
ends. Returns the actions performed and the propagated result. -/
def quitCmd (fs : FsState) : List Event × Except Unit FsState :=
  match fsRemoveCtrl fs with
  | Except.ok fs1 => ([Event.fsRemove], Except.ok fs1)
  | Except.error e => ([], Except.error e)

/-- Process exit code of `main` for a subcommand arm's result. -/
def cmdExitCode : Except Unit FsState → Nat
  | Except.ok _ => 0
  | Except.error _ => 1

/-!
## The `Run` subcommand's CLI contract (lines 33–37, 85)

Clap's `#[clap(required = true)]` on `command: Vec<String>` makes the
`Run` subcommand reject an empty vector: at least one value must be
supplied. Line 85 then builds
`Command::new(&command[0]).args(&command[1..])`.
-/

/-- Whether clap accepts a `Run` invocation with this command vector:
`required = true` demands at least one element. -/
def runAccepted (command : List String) : Bool :=
  !command.isEmpty

/-- `&command[0]` (line 85): the indexing that would panic if out of
bounds, modelled as the partial lookup. -/
def spawnProgram (command : List String) : Option String :=
  command.get? 0

/-- `&command[1..]` (line 85): the slice from index 1, in bounds exactly
when `1 ≤ command.len()`; for such vectors it is `command.drop 1`. -/
def spawnArgs (command : List String) : List String :=
  command.drop 1

/-!
## Structural lemmas about the loops
-/

/-- Step equation for the inner loop entered with `keep_going = true`,
with the classification resolved: `Remove` kills and breaks at once;
otherwise a `Write` contributes a kill and the iteration proceeds to the
`try_wait` check, whose three outcomes decide whether the loop breaks. -/
theorem innerLoop_cons_true (i : PollInput) (rest : List PollInput) :
    innerLoop true (i :: rest) =
      if i.recv = some DebouncedEvent.Remove then ([Event.kill], false, rest, true)
      else
        let killEvents := if i.recv = some DebouncedEvent.Write then [Event.kill] else []
        match i.tryWait with
        | TryWaitResult.exited c => (killEvents ++ [Event.outExit c], true, rest, true)
        | TryWaitResult.running =>
          (killEvents ++ (innerLoop true rest).1, (innerLoop true rest).2)
        | TryWaitResult.err =>
          (killEvents ++ Event.outTryWaitErr :: (innerLoop true rest).1,
            (innerLoop true rest).2) := by
  obtain ⟨recv, killOk, tw⟩ := i
  rcases recv with _ | ev
  · cases tw <;> rfl
  · cases ev <;> cases tw <;> rfl

/-- Every event the inner loop emits is a kill, an `Exit` line, or a
`try_wait` error line: it never spawns, never touches the filesystem,
and never prints `Restarting...`, `Quitting...` or a spawn error. -/
theorem innerLoop_mem (polls : List PollInput) :
    ∀ e ∈ (innerLoop true polls).1,
      e = Event.kill ∨ (∃ c, e = Event.outExit c) ∨ e = Event.outTryWaitErr := by
  induction polls with
  | nil => intro e he; simp [innerLoop] at he
  | cons i rest ih =>
    intro e he
    rw [innerLoop_cons_true] at he
    by_cases hrm : i.recv = some DebouncedEvent.Remove
    · simp [hrm] at he
      simp [he]
    · simp only [hrm, if_false] at he
      have hkill : ∀ x ∈ (if i.recv = some DebouncedEvent.Write
          then [Event.kill] else []), x = Event.kill := by
        split <;> simp
      cases htw : i.tryWait <;> simp only [htw] at he
      · rcases List.mem_append.mp he with h1 | h1
        · exact Or.inl (hkill e h1)
        · simp at h1
          exact Or.inr (Or.inl ⟨_, h1⟩)
      · rcases List.mem_append.mp he with h1 | h1
        · exact Or.inl (hkill e h1)
        · exact ih e h1
      · rcases List.mem_append.mp he with h1 | h1
        · exact Or.inl (hkill e h1)
        · rcases List.mem_cons.mp h1 with h2 | h2
          · exact Or.inr (Or.inr h2)
          · exact ih e h2

/-- If the inner loop (entered with `keep_going = true`) comes back with
the flag cleared, then it exited by `break` and never printed an `Exit`
line: the only way the flag clears is a `Remove` event, and that
iteration breaks before the `try_wait` check. -/
theorem innerLoop_quit (polls : List PollInput)
    (h : (innerLoop true polls).2.1 = false) :
    (∀ c, Event.outExit c ∉ (innerLoop true polls).1)
      ∧ (innerLoop true polls).2.2.2 = true := by
  induction polls with
  | nil => simp [innerLoop] at h
  | cons i rest ih =>
    rw [innerLoop_cons_true] at h ⊢
    by_cases hrm : i.recv = some DebouncedEvent.Remove
    · simp [hrm]
    · simp only [hrm, if_false] at h ⊢
      have hkill : ∀ c, Event.outExit c ∉ (if i.recv = some DebouncedEvent.Write
          then [Event.kill] else []) := by
        intro c; split <;> simp
      cases htw : i.tryWait <;> simp only [htw] at h ⊢
      · simp at h
      · have := ih h
        refine ⟨?_, this.2⟩
        intro c hc
        rcases List.mem_append.mp hc with h1 | h1
        · exact hkill c h1
        · exact this.1 c h1
      · have := ih h
        refine ⟨?_, this.2⟩
        intro c hc
        rcases List.mem_append.mp hc with h1 | h1
        · exact hkill c h1
        · rcases List.mem_cons.mp h1 with h2 | h2
          · cases h2
          · exact this.1 c h2

/-- The inner loop never spawns and never prints `Restarting...`. -/
theorem innerLoop_no_spawn_restart (polls : List PollInput) :
    Event.spawn ∉ (innerLoop true polls).1
      ∧ Event.outRestarting ∉ (innerLoop true polls).1 := by
  constructor <;> intro h <;>
    rcases innerLoop_mem polls _ h with h1 | ⟨c, h1⟩ | h1 <;> simp at h1

/-- Step equation for the outer loop on a successful spawn: the spawned
generation's inner loop runs; if it broke out, `Restarting...` is printed
iff `keep_going` still holds and the loop continues with the next spawn
outcome; if the input trace ran out, the run is unfinished. -/
theorem outerLoop_cons_ok (srest : List SpawnResult) (polls : List PollInput) :
    outerLoop true (SpawnResult.ok :: srest) polls =
      if (innerLoop true polls).2.2.2 then
        (Event.spawn :: ((innerLoop true polls).1
            ++ (if (innerLoop true polls).2.1 then [Event.outRestarting] else [])
            ++ (outerLoop (innerLoop true polls).2.1 srest (innerLoop true polls).2.2.1).1),
          (outerLoop (innerLoop true polls).2.1 srest (innerLoop true polls).2.2.1).2)
      else
        (Event.spawn :: (innerLoop true polls).1, RunEnd.outOfTrace,
          (innerLoop true polls).2.2.1) := by
  rfl

/-- Every event the outer loop emits is a spawn, a kill, an `Exit` line,
a `try_wait` error line, a `Restarting...` line or a spawn-error line:
in particular it never writes to or removes the control file. -/
theorem outerLoop_mem :
    ∀ (spawns : List SpawnResult) (kg : Bool) (polls : List PollInput),
      ∀ e ∈ (outerLoop kg spawns polls).1,
        e = Event.spawn ∨ e = Event.kill ∨ (∃ c, e = Event.outExit c)
          ∨ e = Event.outTryWaitErr ∨ e = Event.outRestarting
          ∨ e = Event.outSpawnError := by
  intro spawns
  induction spawns with
  | nil =>
    intro kg polls e he
    cases kg <;> simp [outerLoop] at he
  | cons s srest ih =>
    intro kg polls e he
    cases kg
    · simp [outerLoop] at he
    · cases s
      · rw [outerLoop_cons_ok] at he
        by_cases hb : (innerLoop true polls).2.2.2 = true
        · rw [if_pos hb] at he
          rcases List.mem_cons.mp he with h1 | h1
          · exact Or.inl h1
          rcases List.mem_append.mp h1 with h2 | h2
          · rcases List.mem_append.mp h2 with h3 | h3
            · rcases innerLoop_mem polls _ h3 with h4 | h4 | h4
              · exact Or.inr (Or.inl h4)
              · exact Or.inr (Or.inr (Or.inl h4))
              · exact Or.inr (Or.inr (Or.inr (Or.inl h4)))
            · have : e = Event.outRestarting := by
                revert h3; split <;> simp
              exact Or.inr (Or.inr (Or.inr (Or.inr (Or.inl this))))
          · exact ih _ _ e h2
        · rw [if_neg hb] at he
          rcases List.mem_cons.mp he with h1 | h1
          · exact Or.inl h1
          · rcases innerLoop_mem polls _ h1 with h3 | h3 | h3
            · exact Or.inr (Or.inl h3)
            · exact Or.inr (Or.inr (Or.inl h3))
            · exact Or.inr (Or.inr (Or.inr (Or.inl h3)))
      · simp [outerLoop] at he
        simp [he]

/-- The outer loop never writes to or removes the control file. -/
theorem outerLoop_no_ctrl (spawns : List SpawnResult) (kg : Bool)
    (polls : List PollInput) :
    Event.fsWrite ∉ (outerLoop kg spawns polls).1
      ∧ Event.fsRemove ∉ (outerLoop kg spawns polls).1 := by
  constructor <;> intro h <;>
    rcases outerLoop_mem spawns kg polls _ h with h1 | h1 | ⟨c, h1⟩ | h1 | h1 | h1 <;>
    simp at h1

/-- If the outer loop (entered with `keep_going = true`) ends in `quit`,
its event list decomposes as earlier generations followed by a final
generation `spawn :: ies` in which no further spawn occurs, no `Exit`
line is printed and no `Restarting...` line is printed. -/
theorem outerLoop_quit_final :
    ∀ (spawns : List SpawnResult) (polls : List PollInput) (es : List Event)
      (rem : List PollInput),
      outerLoop true spawns polls = (es, RunEnd.quit, rem) →
      ∃ pre ies, es = pre ++ Event.spawn :: ies
        ∧ Event.spawn ∉ ies ∧ (∀ c, Event.outExit c ∉ ies)
        ∧ Event.outRestarting ∉ ies := by
  intro spawns
  induction spawns with
  | nil =>
    intro polls es rem h
    simp [outerLoop] at h
  | cons s srest ih =>
    intro polls es rem h
    cases s
    case ok =>
      rw [outerLoop_cons_ok] at h
      by_cases hb : (innerLoop true polls).2.2.2 = true
      · rw [if_pos hb] at h
        by_cases hkg : (innerLoop true polls).2.1 = true
        · rw [if_pos hkg] at h
          have h1 : es = Event.spawn :: ((innerLoop true polls).1
              ++ [Event.outRestarting]
              ++ (outerLoop true srest (innerLoop true polls).2.2.1).1) := by
            rw [hkg] at h
            exact (Prod.mk.injEq _ _ _ _ |>.mp h).1.symm
          have h2 : (outerLoop true srest (innerLoop true polls).2.2.1).2
              = (RunEnd.quit, rem) := by
            rw [hkg] at h
            exact (Prod.mk.injEq _ _ _ _ |>.mp h).2
          obtain ⟨pre, ies, hes, hsp, hex, hre⟩ :=
            ih (innerLoop true polls).2.2.1
              (outerLoop true srest (innerLoop true polls).2.2.1).1 rem
              (by rw [← h2])
          refine ⟨Event.spawn :: ((innerLoop true polls).1
              ++ [Event.outRestarting] ++ pre), ies, ?_, hsp, hex, hre⟩
          rw [h1, hes]
          simp [List.append_assoc]
        · have hkg1 : (innerLoop true polls).2.1 = false := by
            simpa using hkg
          rw [hkg1] at h
          simp only [if_false, Bool.false_eq_true] at h
          have h1 : es = Event.spawn :: ((innerLoop true polls).1 ++ [] ++ []) := by
            simpa [outerLoop] using (Prod.mk.injEq _ _ _ _ |>.mp h).1.symm
          refine ⟨[], (innerLoop true polls).1, ?_, ?_, ?_, ?_⟩
          · simpa using h1
          · exact (innerLoop_no_spawn_restart polls).1
          · exact (innerLoop_quit polls hkg1).1
          · exact (innerLoop_no_spawn_restart polls).2
      · rw [if_neg hb] at h
        simp at h
    case err =>
      simp [outerLoop] at h

/-- Auto-restart scenario: `n` generations whose children exit on their
own, with no watch events: each generation spawns, observes the exit,
prints the `Exit` and `Restarting...` lines, and the loop goes on. -/
theorem outerLoop_replicate (c : Int) :
    ∀ n : Nat,
      outerLoop true (List.replicate n SpawnResult.ok)
          (List.replicate n (PollInput.mk none true (TryWaitResult.exited c)))
        = ((List.replicate n
              [Event.spawn, Event.outExit c, Event.outRestarting]).flatten,
            RunEnd.outOfTrace, []) := by
  intro n
  induction n with
  | zero => rfl
  | succ m ih =>
    rw [List.replicate_succ, List.replicate_succ, List.replicate_succ]
    rw [outerLoop_cons_ok]
    have hi : innerLoop true (PollInput.mk none true (TryWaitResult.exited c) ::
          List.replicate m (PollInput.mk none true (TryWaitResult.exited c)))
        = ([Event.outExit c], true,
            List.replicate m (PollInput.mk none true (TryWaitResult.exited c)),
            true) := rfl
    rw [hi]
    simp [ih, List.flatten]

/-!
## The claims
-/

/-- C1 counterexample: with a nonexistent executable the spawn fails, the
error is reported and the run terminates at once — but `run` breaks out
of the `while` loop and still reaches `Ok(())`, so the process exit
status is 0, not non-zero as the claim states (and `Quitting...` is
printed on the way out). -/
theorem c1_spawn_fail_exit_zero_cex :
    run true true true [SpawnResult.err] []
        = RunResult.done [Event.fsWrite, Event.outSpawnError, Event.outQuitting]
            RunEnd.spawnFail
      ∧ exitCode (run true true true [SpawnResult.err] []) = 0 := by
  decide

/-- C1 (amended): if spawning fails, the error is reported, the
supervisor terminates immediately without entering the `Running` poll
loop (no poll input is consumed, no spawn or kill event occurs) and
without retrying (any remaining spawn outcomes are ignored) — but the
process exits with status 0, the `Ok(())` path, not a non-zero status. -/
theorem c1_spawn_fail_fatal_no_retry :
    ∀ (srest : List SpawnResult) (polls : List PollInput),
      outerLoop true (SpawnResult.err :: srest) polls
          = ([Event.outSpawnError], RunEnd.spawnFail, polls)
        ∧ run true true true (SpawnResult.err :: srest) polls
          = RunResult.done [Event.fsWrite, Event.outSpawnError, Event.outQuitting]
              RunEnd.spawnFail
        ∧ exitCode (run true true true (SpawnResult.err :: srest) polls) = 0 := by
  intro srest polls
  exact ⟨rfl, rfl, rfl⟩

/-- C2: once a `Removed` event is observed, the iteration kills the
current child and breaks out with the continue flag cleared, consuming
no further events; and with the flag cleared the outer loop terminates
immediately — no spawn occurs for the rest of the run, whatever further
spawn outcomes or filesystem events the environment would supply. -/
theorem c2_removed_no_further_spawn :
    (∀ (kg : Bool) (i : PollInput) (rest : List PollInput),
      i.recv = some DebouncedEvent.Remove →
      innerLoop kg (i :: rest) = ([Event.kill], false, rest, true))
    ∧ (∀ (spawns : List SpawnResult) (polls : List PollInput),
      outerLoop false spawns polls = ([], RunEnd.quit, polls)) := by
  constructor
  · intro kg i rest h
    obtain ⟨recv, k, tw⟩ := i
    cases h
    rfl
  · intro spawns polls
    cases spawns <;> rfl

/-- C2 witness at a concrete input. -/
theorem c2_witness :
    innerLoop true
        [PollInput.mk (some DebouncedEvent.Remove) true (TryWaitResult.exited 3)]
        = ([Event.kill], false, [], true)
      ∧ outerLoop false [SpawnResult.ok]
          [PollInput.mk (some DebouncedEvent.Write) true TryWaitResult.running]
        = ([], RunEnd.quit,
            [PollInput.mk (some DebouncedEvent.Write) true TryWaitResult.running]) :=
  ⟨c2_removed_no_further_spawn.1 true _ [] rfl,
    c2_removed_no_further_spawn.2 _ _⟩

/-- C3 counterexample: a `Write` event with the child still running at
the `try_wait` check — the kill is issued but the inner loop does NOT
break in that poll iteration (`broke = false`): with no further input
the run is still inside `Running` and no second spawn has occurred,
contradicting the claim that the loop exits back to `Spawning` in that
same iteration. -/
theorem c3_restart_same_iteration_cex :
    innerLoop true
        [PollInput.mk (some DebouncedEvent.Write) true TryWaitResult.running]
        = ([Event.kill], true, [], false)
      ∧ run true true true [SpawnResult.ok, SpawnResult.ok]
          [PollInput.mk (some DebouncedEvent.Write) true TryWaitResult.running]
        = RunResult.incomplete [Event.fsWrite, Event.spawn, Event.kill] := by
  decide

/-- C3 (amended): when a restart is requested and the child has not yet
exited at the non-blocking check, the kill is issued and the loop
continues polling within `Running`; it exits back to `Spawning` only in
a later iteration, when the non-blocking check observes the child's
exit (and then reports the exit status and breaks with the continue
flag still set). -/
theorem c3_restart_waits_for_exit :
    (∀ (k : Bool) (rest : List PollInput),
      innerLoop true
          (PollInput.mk (some DebouncedEvent.Write) k TryWaitResult.running :: rest)
        = (Event.kill :: (innerLoop true rest).1, (innerLoop true rest).2))
    ∧ (∀ (k : Bool) (c : Int) (rest : List PollInput),
      innerLoop true
          (PollInput.mk (some DebouncedEvent.Write) k (TryWaitResult.exited c) :: rest)
        = ([Event.kill, Event.outExit c], true, rest, true)) :=
  ⟨fun _ _ => rfl, fun _ _ _ => rfl⟩

/-- C4: a child that exits on its own (no watch event, so no kill) is
observed by the non-blocking check, its status is reported, and the
loop breaks back to spawning with the continue flag set; and for every
`n`, a run whose environment supplies `n` self-exiting generations
spawns all `n` of them, each with its `Exit` report and `Restarting...`
line, and is still going afterwards — repeating indefinitely until a
quit is requested. -/
theorem c4_auto_restart_on_self_exit :
    (∀ (k : Bool) (c : Int) (rest : List PollInput),
      innerLoop true (PollInput.mk none k (TryWaitResult.exited c) :: rest)
        = ([Event.outExit c], true, rest, true))
    ∧ (∀ (n : Nat) (c : Int),
      run true true true (List.replicate n SpawnResult.ok)
          (List.replicate n (PollInput.mk none true (TryWaitResult.exited c)))
        = RunResult.incomplete (Event.fsWrite ::
            (List.replicate n
              [Event.spawn, Event.outExit c, Event.outRestarting]).flatten)) := by
  constructor
  · intro k c rest
    rfl
  · intro n c
    simp [run, outerLoop_replicate c n]

/-- C5 counterexample: a watcher error delivered through the channel
(`DebouncedEvent::Error`, hitting the `_ => {}` arm) produces no printed
diagnostic at all, and a failing `proc.kill()` (its result discarded by
`let _ =`) likewise produces no diagnostic — refuting the claim that
every recoverable runtime error is logged. (The loop does continue in
both cases.) -/
theorem c5_silent_recoverable_errors_cex :
    innerLoop true
        [PollInput.mk (some DebouncedEvent.Error) true TryWaitResult.running]
        = ([], true, [], false)
      ∧ innerLoop true
          [PollInput.mk (some DebouncedEvent.Write) false TryWaitResult.running]
        = ([Event.kill], true, [], false) := by
  decide

/-- C5 (amended): all three recoverable runtime errors are non-fatal and
the supervision loop continues, but only the `try_wait` error prints a
diagnostic: a watch-read error behaves exactly like no event at all, and
the result of the kill call is ignored entirely (the loop behaves
identically whether the kill succeeded or failed), both without any
diagnostic. -/
theorem c5_recoverable_errors_nonfatal :
    (∀ (k : Bool) (tw : TryWaitResult) (rest : List PollInput),
      innerLoop true (PollInput.mk (some DebouncedEvent.Error) k tw :: rest)
        = innerLoop true (PollInput.mk none k tw :: rest))
    ∧ (∀ (kg : Bool) (r : Option DebouncedEvent) (k1 k2 : Bool)
        (tw : TryWaitResult) (rest : List PollInput),
      innerLoop kg (PollInput.mk r k1 tw :: rest)
        = innerLoop kg (PollInput.mk r k2 tw :: rest))
    ∧ (∀ (k : Bool) (rest : List PollInput),
      innerLoop true (PollInput.mk none k TryWaitResult.err :: rest)
        = (Event.outTryWaitErr :: (innerLoop true rest).1,
            (innerLoop true rest).2)) :=
  ⟨fun _ _ _ => rfl, fun _ _ _ _ _ _ => rfl, fun _ _ => rfl⟩

/-- C6: the classification of one poll cycle — a `Write` to the control
object marks a restart, a `Remove` marks a quit, every other raw event
kind leaves `(restart, keep_going)` untouched, and a timeout (`none`) is
no event; moreover a timeout iteration with the child still running is
identical to not having had the iteration at all (no output, no state
change, not an error). -/
theorem c6_event_classification :
    ∀ kg : Bool,
      classify kg (some DebouncedEvent.Write) = (true, kg)
      ∧ classify kg (some DebouncedEvent.Remove) = (false, false)
      ∧ (∀ ev : DebouncedEvent, ev ≠ DebouncedEvent.Write →
          ev ≠ DebouncedEvent.Remove → classify kg (some ev) = (false, kg))
      ∧ classify kg none = (false, kg)
      ∧ (∀ (k : Bool) (rest : List PollInput),
          innerLoop true (PollInput.mk none k TryWaitResult.running :: rest)
            = innerLoop true rest) := by
  intro kg
  refine ⟨rfl, rfl, ?_, rfl, fun _ _ => rfl⟩
  intro ev h1 h2
  cases ev <;> first
    | rfl
    | exact absurd rfl h1
    | exact absurd rfl h2

/-- C6 witness at a concrete input. -/
theorem c6_witness :
    classify true (some DebouncedEvent.Chmod) = (false, true) :=
  (c6_event_classification true).2.2.1 DebouncedEvent.Chmod
    (by decide) (by decide)

/-- C7: for every run whose initialization write succeeded, the whole
event trace contains exactly one write to the control path (the
initialization write) and no removal of it, whatever the environment
does and however the run ends — the supervisor never writes the control
file again and never deletes it. -/
theorem c7_control_file_frame :
    ∀ (watcherOk watchOk : Bool) (spawns : List SpawnResult)
      (polls : List PollInput),
      (run true watcherOk watchOk spawns polls).events.count Event.fsWrite = 1
        ∧ Event.fsRemove ∉ (run true watcherOk watchOk spawns polls).events := by
  intro watcherOk watchOk spawns polls
  have hW := (outerLoop_no_ctrl spawns true polls).1
  have hR := (outerLoop_no_ctrl spawns true polls).2
  cases watcherOk
  · simp [run, RunResult.events]
  · cases watchOk
    · simp [run, RunResult.events]
    · rcases hend : (outerLoop true spawns polls).2.1 with _ | _ | _ <;>
        simp [run, hend, RunResult.events, List.count_cons, List.count_append,
          List.count_eq_zero_of_not_mem hW, hR]

/-- C8: the `Restart` arm performs the write to the control path and
nothing else, succeeding exactly when the parent directory exists, and
the `Quit` arm performs the delete and nothing else, succeeding exactly
when the path exists; in either failure nothing is performed and the
error propagates to a non-zero process exit. -/
theorem c8_restart_quit_commands :
    ∀ fs : FsState,
      (fs.parentOk = true →
        restartCmd fs = ([Event.fsWrite], Except.ok { fs with ctrlExists := true }))
      ∧ (cmdExitCode (restartCmd fs).2 = 0 ↔ fs.parentOk = true)
      ∧ (fs.parentOk = false →
        restartCmd fs = ([], Except.error ())
          ∧ cmdExitCode (restartCmd fs).2 = 1)
      ∧ (fs.ctrlExists = true →
        quitCmd fs = ([Event.fsRemove], Except.ok { fs with ctrlExists := false }))
      ∧ (cmdExitCode (quitCmd fs).2 = 0 ↔ fs.ctrlExists = true)
      ∧ (fs.ctrlExists = false →
        quitCmd fs = ([], Except.error ())
          ∧ cmdExitCode (quitCmd fs).2 = 1) := by
  intro fs
  obtain ⟨p, c⟩ := fs
  cases p <;> cases c <;>
    simp [restartCmd, quitCmd, fsWriteCtrl, fsRemoveCtrl, cmdExitCode]

/-- C8 witness at concrete filesystem states. -/
theorem c8_witness :
    restartCmd (FsState.mk true false)
        = ([Event.fsWrite], Except.ok (FsState.mk true true))
      ∧ quitCmd (FsState.mk true true)
        = ([Event.fsRemove], Except.ok (FsState.mk true false)) :=
  ⟨(c8_restart_quit_commands (FsState.mk true false)).1 rfl,
    (c8_restart_quit_commands (FsState.mk true true)).2.2.2.1 rfl⟩

/-- C9: every command vector clap accepts for `Run` is non-empty, and
for such vectors the accesses `&command[0]` and `&command[1..]` of
line 85 are in bounds: the first element exists and the vector is the
program followed by its argument slice. -/
theorem c9_run_command_nonempty_safe :
    ∀ command : List String, runAccepted command = true →
      command ≠ []
        ∧ 1 ≤ command.length
        ∧ ∃ p, spawnProgram command = some p
            ∧ command = p :: spawnArgs command := by
  intro command h
  cases command with
  | nil => simp [runAccepted] at h
  | cons a as =>
    exact ⟨by simp, by simp, a, rfl, rfl⟩

/-- C9 witness at a concrete command vector. -/
theorem c9_witness :
    (["echo", "hi"] : List String) ≠ []
      ∧ 1 ≤ (["echo", "hi"] : List String).length
      ∧ ∃ p, spawnProgram ["echo", "hi"] = some p
          ∧ ["echo", "hi"] = p :: spawnArgs ["echo", "hi"] :=
  c9_run_command_nonempty_safe ["echo", "hi"] rfl

/-- C10: a `Remove` iteration breaks before the non-blocking status
check — the iteration's outcome is independent of what `try_wait` would
have returned — and on every completed quit run the final generation
(the last `spawn` and what follows it) contains no `Exit` line and no
`Restarting...` line: only the final `Quitting...` notice follows. -/
theorem c10_removed_breaks_before_status_check :
    (∀ (kg : Bool) (k : Bool) (tw tw1 : TryWaitResult) (rest : List PollInput),
      innerLoop kg (PollInput.mk (some DebouncedEvent.Remove) k tw :: rest)
        = innerLoop kg (PollInput.mk (some DebouncedEvent.Remove) k tw1 :: rest))
    ∧ (∀ (spawns : List SpawnResult) (polls : List PollInput) (es : List Event),
      run true true true spawns polls = RunResult.done es RunEnd.quit →
      ∃ pre ies, es = pre ++ (Event.spawn :: (ies ++ [Event.outQuitting]))
        ∧ Event.spawn ∉ ies ∧ (∀ c, Event.outExit c ∉ ies)
        ∧ Event.outRestarting ∉ ies) := by
  constructor
  · intro kg k tw tw1 rest
    rfl
  · intro spawns polls es h
    rcases hend : (outerLoop true spawns polls).2.1 with _ | _ | _ <;>
      simp [run, hend] at h
    · have h2 : outerLoop true spawns polls
          = ((outerLoop true spawns polls).1, RunEnd.quit,
              (outerLoop true spawns polls).2.2) := by
        rw [← hend]
      obtain ⟨pre, ies, hes, hsp, hex, hre⟩ :=
        outerLoop_quit_final spawns polls _ _ h2
      refine ⟨Event.fsWrite :: pre, ies, ?_, hsp, hex, hre⟩
      rw [← h, hes]
      simp

/-- C10 witness at a concrete quit run. -/
theorem c10_witness :
    ∃ pre ies,
      [Event.fsWrite, Event.spawn, Event.kill, Event.outQuitting]
          = pre ++ (Event.spawn :: (ies ++ [Event.outQuitting]))
        ∧ Event.spawn ∉ ies ∧ (∀ c, Event.outExit c ∉ ies)
        ∧ Event.outRestarting ∉ ies :=
  c10_removed_breaks_before_status_check.2 [SpawnResult.ok]
    [PollInput.mk (some DebouncedEvent.Remove) true TryWaitResult.running]
    [Event.fsWrite, Event.spawn, Event.kill, Event.outQuitting] (by decide)
